import Mathlib

/-!
# Verification of the finance-app analytics & goal engine

Shallow embedding of the core logic of the `nixeeta/finance-app` repository:
the goal contribution/milestone/auto-save state machine
(`backend/models/Goal.js` and the goal routes), the budget projection and
financial-health computations (analytics routes), the budget suggestion
helper (AI routes) and the category-wise expense aggregation
(`backend/models/Expense.js`).

Modelling conventions:
* JavaScript numbers (monetary amounts, percentages) are modelled as `ℚ`;
  the decimal literals of the source (`0.25`, `0.5`, …) are written as the
  exact rationals they denote.
* JavaScript `Date` instants are modelled as `ℚ` milliseconds since the
  epoch, matching the source's arithmetic `(now - last)/(1000*60*60*24)`.
* Mongo documents become Lean structures; a fallible route handler becomes
  either `Except ApiError Goal` (when a rejected request leaves no state to
  talk about) or `Option ApiError × Goal` (when the claim under study is
  about the state after a rejection).  A route that returns an error before
  calling `save()` leaves the stored document unchanged, which the pure
  embedding renders by returning the input goal unchanged.
* Mongo aggregation pipelines (`$group` + `$sort`) over a single user's
  records become list functions: grouping keyed by first occurrence order,
  then a stable sort on the sort key (the relative order of equal sort keys
  is unspecified in Mongo; every theorem below is insensitive to it).
* Presentation-only strings (localized messages, factor labels) are not
  modelled; only the fields the claims mention are kept.
-/

namespace FinanceApp

/-! ## Data model: Goal (src/backend/models/Goal.js) -/

/-- `status` enum of the goal schema. -/
inductive GoalStatus
  | active
  | completed
  | paused
  | cancelled
deriving DecidableEq, Repr

/-- `priority` enum of the goal schema. -/
inductive Priority
  | low
  | medium
  | high
  | urgent
deriving DecidableEq, Repr

/-- `autoSave.frequency` enum of the goal schema. -/
inductive Frequency
  | daily
  | weekly
  | monthly
deriving DecidableEq, Repr

/-- `contributions.source` enum of the goal schema. -/
inductive ContributionSource
  | manual
  | autoSave
  | bonus
  | other
deriving DecidableEq, Repr

/-- `category` enum of the goal schema. -/
inductive GoalCategory
  | emergencyFund
  | gadget
  | travel
  | education
  | investment
  | entertainment
  | health
  | other
deriving DecidableEq, Repr

/-- One element of the `milestones` array of the goal schema. -/
structure Milestone where
  percentage : ℚ
  amount : ℚ
  isAchieved : Bool := false
  achievedDate : Option ℚ := none
deriving DecidableEq, Repr

/-- One element of the `contributions` array of the goal schema. -/
structure Contribution where
  amount : ℚ
  date : ℚ
  note : String
  source : ContributionSource
deriving DecidableEq, Repr

/-- The `autoSave` sub-document of the goal schema. -/
structure AutoSaveConfig where
  enabled : Bool := false
  amount : ℚ := 0
  frequency : Frequency := .monthly
  lastAutoSave : Option ℚ := none
deriving DecidableEq, Repr

/-- A goal document (fields of the schema that carry logic; presentation
fields such as `description`, `tags`, `isPublic` are omitted, the owner id
is implicit because every modelled operation is already scoped to one
user's documents). -/
structure Goal where
  title : String
  targetAmount : ℚ
  currentAmount : ℚ := 0
  category : GoalCategory
  priority : Priority := .medium
  targetDate : ℚ
  status : GoalStatus := .active
  autoSave : AutoSaveConfig := {}
  milestones : List Milestone := []
  contributions : List Contribution := []
  completedAt : Option ℚ := none
deriving DecidableEq, Repr

/-- Milestone update of the `pre('save')` hook: an unachieved milestone
whose threshold is reached by `current` becomes achieved, stamped `now`. -/
def updateMilestone (current now : ℚ) (m : Milestone) : Milestone :=
  if ¬ m.isAchieved ∧ current ≥ m.amount then
    { m with isAchieved := true, achievedDate := some now }
  else m

/-- The `goalSchema.pre('save')` hook: completes an active goal whose
current amount has reached the target, then re-evaluates every milestone
against the current amount. -/
def preSave (now : ℚ) (g : Goal) : Goal :=
  let g1 :=
    if g.currentAmount ≥ g.targetAmount ∧ g.status = .active then
      { g with status := .completed, completedAt := some now }
    else g
  { g1 with milestones := g1.milestones.map (updateMilestone g1.currentAmount now) }

/-- Instance method `goalSchema.methods.addContribution`: pushes a
contribution record, adds its amount to `currentAmount`, and saves (which
runs the `pre('save')` hook). -/
def addContribution (now amount : ℚ) (note : String) (source : ContributionSource)
    (g : Goal) : Goal :=
  preSave now
    { g with
      contributions := g.contributions ++ [{ amount := amount, date := now, note := note, source := source }],
      currentAmount := g.currentAmount + amount }

/-- Error taxonomy of the route handlers (HTTP 400/404 responses). -/
inductive ApiError
  | validation
  | notFound
  | invalidState
  | notDue
  | disabled
deriving DecidableEq, Repr

/-- Route `POST /api/goals/:id/contribute`: rejects a non-positive amount
(`ValidationError`), rejects a non-active goal (`InvalidState`, message
"Cannot contribute to inactive goal."), otherwise calls `addContribution`.
The second component is the stored goal after the request: a rejected
request returns before any mutation, so the input goal is returned. -/
def contribute (now amount : ℚ) (note : String) (source : ContributionSource)
    (g : Goal) : Option ApiError × Goal :=
  if amount ≤ 0 then (some .validation, g)
  else if g.status ≠ .active then (some .invalidState, g)
  else (none, addContribution now amount note source g)

/-- The default milestones seeded by `POST /api/goals` and rebuilt by
`PUT /api/goals/:id` on a target-amount change: 25/50/75/100 % of the
target, achieved flag and date at their schema defaults. -/
def defaultMilestones (targetAmount : ℚ) : List Milestone :=
  [ { percentage := 25, amount := targetAmount * (25 / 100) },
    { percentage := 50, amount := targetAmount * (50 / 100) },
    { percentage := 75, amount := targetAmount * (75 / 100) },
    { percentage := 100, amount := targetAmount } ]

/-- Route `POST /api/goals`: validates the target amount and the target
date, seeds the default milestones, and saves the new goal (running the
`pre('save')` hook).  Schema defaults give `currentAmount = 0`, no
contributions, status `active`. -/
def createGoal (now : ℚ) (title : String) (targetAmount : ℚ) (category : GoalCategory)
    (priority : Priority) (targetDate : ℚ) (autoSave : AutoSaveConfig) :
    Except ApiError Goal :=
  if targetAmount ≤ 0 then .error .validation
  else if targetDate ≤ now then .error .validation
  else .ok (preSave now
    { title := title
      targetAmount := targetAmount
      category := category
      priority := priority
      targetDate := targetDate
      autoSave := autoSave
      milestones := defaultMilestones targetAmount })

/-- The optional fields of a `PUT /api/goals/:id` request body.  `autoSave`
carries the merged sub-document (the source merges the provided subfields
into the existing ones with an object spread before assigning). -/
structure GoalUpdate where
  title : Option String := none
  category : Option GoalCategory := none
  priority : Option Priority := none
  status : Option GoalStatus := none
  autoSave : Option AutoSaveConfig := none
  targetAmount : Option ℚ := none
  targetDate : Option ℚ := none

/-- The `if (field) goal.field = …` assignments of `PUT /api/goals/:id`
that precede the target-amount / target-date handling. -/
def applyBasicEdits (u : GoalUpdate) (g : Goal) : Goal :=
  let g1 := match u.title with | some t => { g with title := t } | none => g
  let g2 := match u.category with | some c => { g1 with category := c } | none => g1
  let g3 := match u.priority with | some p => { g2 with priority := p } | none => g2
  let g4 := match u.status with | some s => { g3 with status := s } | none => g3
  match u.autoSave with | some a => { g4 with autoSave := a } | none => g4

/-- Route `PUT /api/goals/:id`: applies the provided fields in source
order; a provided target amount is validated (`> 0`) and replaces the
milestone list by `defaultMilestones` of the new target; a provided target
date is validated to be in the future; then the goal is saved (running the
`pre('save')` hook).  A validation failure returns before `save()`, so the
stored goal is unchanged. -/
def updateGoal (now : ℚ) (u : GoalUpdate) (g : Goal) : Except ApiError Goal :=
  let g5 := applyBasicEdits u g
  match u.targetAmount with
  | some ta =>
    if ta ≤ 0 then .error .validation
    else
      let g6 := { g5 with targetAmount := ta, milestones := defaultMilestones ta }
      match u.targetDate with
      | some td => if td ≤ now then .error .validation else .ok (preSave now { g6 with targetDate := td })
      | none => .ok (preSave now g6)
  | none =>
    match u.targetDate with
    | some td => if td ≤ now then .error .validation else .ok (preSave now { g5 with targetDate := td })
    | none => .ok (preSave now g5)

/-- The due check of `POST /api/goals/:id/auto-save`: due if `lastAutoSave`
was never set, otherwise if the elapsed days `(now - last)/(1000*60*60*24)`
reach 1 (daily), 7 (weekly) or 30 (monthly). -/
def autoSaveDue (now : ℚ) (g : Goal) : Bool :=
  match g.autoSave.lastAutoSave with
  | none => true
  | some last =>
    let daysSinceLastSave : ℚ := (now - last) / 86400000
    match g.autoSave.frequency with
    | .daily => decide (daysSinceLastSave ≥ 1)
    | .weekly => decide (daysSinceLastSave ≥ 7)
    | .monthly => decide (daysSinceLastSave ≥ 30)

/-- Route `POST /api/goals/:id/auto-save`: rejects when auto-save is
disabled or its per-period amount is non-positive, when the goal is not
active, or when the auto-save is not due — each rejection happens before
any mutation.  When due it adds one contribution of the configured amount
with source `auto-save`, stamps `lastAutoSave = now`, and saves again. -/
def autoSaveRun (now : ℚ) (g : Goal) : Option ApiError × Goal :=
  if ¬ g.autoSave.enabled ∨ g.autoSave.amount ≤ 0 then (some .disabled, g)
  else if g.status ≠ .active then (some .invalidState, g)
  else if ¬ autoSaveDue now g then (some .notDue, g)
  else
    let g1 := addContribution now g.autoSave.amount "Auto-save contribution" .autoSave g
    let g2 := preSave now { g1 with autoSave := { g1.autoSave with lastAutoSave := some now } }
    (none, g2)

/-- Sum of the amounts of a goal's contribution records. -/
def sumContributions (g : Goal) : ℚ :=
  (g.contributions.map Contribution.amount).sum

/-- One request to the contribution route, for replaying call sequences. -/
structure ContribCall where
  now : ℚ
  amount : ℚ
  note : String
  source : ContributionSource

/-- Replay a sequence of contribution requests against a goal; a rejected
request leaves the stored goal unchanged (second component of
`contribute`). -/
def applyContributions (calls : List ContribCall) (g : Goal) : Goal :=
  calls.foldl (fun g c => (contribute c.now c.amount c.note c.source g).2) g

/-! ### Basic lemmas about the goal engine -/

theorem preSave_contributions (now : ℚ) (g : Goal) :
    (preSave now g).contributions = g.contributions := by
  unfold preSave
  split <;> rfl

theorem preSave_currentAmount (now : ℚ) (g : Goal) :
    (preSave now g).currentAmount = g.currentAmount := by
  unfold preSave
  split <;> rfl

theorem preSave_autoSave (now : ℚ) (g : Goal) :
    (preSave now g).autoSave = g.autoSave := by
  unfold preSave
  split <;> rfl

theorem addContribution_contributions (now amount : ℚ) (note : String)
    (source : ContributionSource) (g : Goal) :
    (addContribution now amount note source g).contributions =
      g.contributions ++ [{ amount := amount, date := now, note := note, source := source }] := by
  unfold addContribution
  rw [preSave_contributions]

theorem addContribution_currentAmount (now amount : ℚ) (note : String)
    (source : ContributionSource) (g : Goal) :
    (addContribution now amount note source g).currentAmount =
      g.currentAmount + amount := by
  unfold addContribution
  rw [preSave_currentAmount]

/-- The contribution sum / current amount invariant is preserved by one
(accepted or rejected) request to the contribution route. -/
theorem contribute_preserves_sum_invariant (c : ContribCall) (g : Goal)
    (h : sumContributions g = g.currentAmount) :
    sumContributions (contribute c.now c.amount c.note c.source g).2 =
      ((contribute c.now c.amount c.note c.source g).2).currentAmount := by
  unfold contribute
  split
  · exact h
  · split
    · exact h
    · simp only [sumContributions, addContribution_contributions,
        addContribution_currentAmount, List.map_append, List.sum_append,
        List.map_cons, List.map_nil, List.sum_cons, List.sum_nil]
      rw [← h]
      simp [sumContributions]

theorem preSave_milestones (now : ℚ) (g : Goal) :
    (preSave now g).milestones = g.milestones.map (updateMilestone g.currentAmount now) := by
  unfold preSave
  split <;> rfl

theorem updateMilestone_achieved_mono (current now : ℚ) (m : Milestone)
    (h : m.isAchieved = true) :
    (updateMilestone current now m).isAchieved = true := by
  unfold updateMilestone
  split <;> simp_all

theorem updateMilestone_isAchieved_of_not (current now : ℚ) (m : Milestone)
    (h : m.isAchieved = false) :
    (updateMilestone current now m).isAchieved = decide (current ≥ m.amount) := by
  unfold updateMilestone
  split <;> simp_all

theorem preSave_achieved_mono (now : ℚ) (g : Goal) (i : ℕ)
    (h : ((g.milestones[i]?).map Milestone.isAchieved) = some true) :
    (((preSave now g).milestones[i]?).map Milestone.isAchieved) = some true := by
  rw [preSave_milestones, List.getElem?_map]
  rcases hm : g.milestones[i]? with _ | m
  · rw [hm] at h
    exact Option.noConfusion h
  · rw [hm] at h
    simp only [Option.map_some'] at h ⊢
    exact congrArg some (updateMilestone_achieved_mono _ _ _ (Option.some.inj h))

theorem applyBasicEdits_milestones (u : GoalUpdate) (g : Goal) :
    (applyBasicEdits u g).milestones = g.milestones := by
  rcases u with ⟨t, c, p, s, a, ta, td⟩
  unfold applyBasicEdits
  cases t <;> cases c <;> cases p <;> cases s <;> cases a <;> rfl

theorem applyBasicEdits_currentAmount (u : GoalUpdate) (g : Goal) :
    (applyBasicEdits u g).currentAmount = g.currentAmount := by
  rcases u with ⟨t, c, p, s, a, ta, td⟩
  unfold applyBasicEdits
  cases t <;> cases c <;> cases p <;> cases s <;> cases a <;> rfl

/-- A `PUT` that does not provide a target amount leaves the milestone
list intact up to the `pre('save')` re-evaluation. -/
theorem updateGoal_milestones_of_no_target (now : ℚ) (u : GoalUpdate) (g g' : Goal)
    (hta : u.targetAmount = none) (h : updateGoal now u g = .ok g') :
    g'.milestones = g.milestones.map (updateMilestone g.currentAmount now) := by
  rcases htd : u.targetDate with _ | td
  · simp only [updateGoal, hta, htd, Except.ok.injEq] at h
    rw [← h, preSave_milestones, applyBasicEdits_milestones, applyBasicEdits_currentAmount]
  · by_cases hle : td ≤ now
    · simp only [updateGoal, hta, htd, if_pos hle] at h
      exact absurd h (by simp)
    · simp only [updateGoal, hta, htd, if_neg hle, Except.ok.injEq] at h
      rw [← h]
      simp [preSave_milestones, applyBasicEdits_milestones, applyBasicEdits_currentAmount]

/-- A `PUT` that provides a (valid) target amount replaces the milestone
list wholesale: the stored flags are the `pre('save')` re-evaluation of
the four freshly built default milestones. -/
theorem updateGoal_milestones_of_target (now : ℚ) (u : GoalUpdate) (g g' : Goal) (ta : ℚ)
    (hta : u.targetAmount = some ta) (h : updateGoal now u g = .ok g') :
    g'.milestones = (defaultMilestones ta).map (updateMilestone g.currentAmount now) := by
  by_cases hpos : ta ≤ 0
  · simp only [updateGoal, hta, if_pos hpos] at h
    exact absurd h (by simp)
  · rcases htd : u.targetDate with _ | td
    · simp only [updateGoal, hta, htd, if_neg hpos, Except.ok.injEq] at h
      rw [← h]
      simp [preSave_milestones, applyBasicEdits_currentAmount]
    · by_cases hle : td ≤ now
      · simp only [updateGoal, hta, htd, if_neg hpos, if_pos hle] at h
        exact absurd h (by simp)
      · simp only [updateGoal, hta, htd, if_neg hpos, if_neg hle, Except.ok.injEq] at h
        rw [← h]
        simp [preSave_milestones, applyBasicEdits_currentAmount]

/-- The contribution-sum invariant is preserved by replaying any sequence
of requests to the contribution route. -/
theorem applyContributions_sum_invariant (calls : List ContribCall) (g : Goal)
    (h : sumContributions g = g.currentAmount) :
    sumContributions (applyContributions calls g) =
      (applyContributions calls g).currentAmount := by
  induction calls generalizing g with
  | nil => simpa [applyContributions] using h
  | cons c cs ih =>
    have hstep := contribute_preserves_sum_invariant c g h
    simpa [applyContributions] using ih _ hstep

/-- C1.  Starting from a freshly created goal (current amount `0`, empty
contribution list), after any sequence of contribution requests — in
particular after any sequence of successful `addContribution` calls, since
a rejected request leaves the goal unchanged — the sum of the amounts of
the goal's contribution records equals the goal's `currentAmount`. -/
theorem goal_contribution_sum_invariant (calls : List ContribCall) (g0 : Goal)
    (hcur : g0.currentAmount = 0) (hcontrib : g0.contributions = []) :
    sumContributions (applyContributions calls g0) =
      (applyContributions calls g0).currentAmount := by
  apply applyContributions_sum_invariant
  simp [sumContributions, hcontrib, hcur]

/-- A freshly created goal used to instantiate the theorems at concrete
inputs (schema defaults: `currentAmount = 0`, no contributions, `active`). -/
def freshGoal : Goal :=
  { title := "trip"
    targetAmount := 100
    category := .travel
    targetDate := 1000
    milestones := defaultMilestones 100 }

/-- Witness for C1 at a concrete two-call sequence. -/
theorem goal_contribution_sum_invariant_witness :
    freshGoal.currentAmount = 0 ∧ freshGoal.contributions = [] ∧
      sumContributions
          (applyContributions [⟨1, 10, "", .manual⟩, ⟨2, 5, "", .bonus⟩] freshGoal) =
        (applyContributions [⟨1, 10, "", .manual⟩, ⟨2, 5, "", .bonus⟩] freshGoal).currentAmount :=
  ⟨rfl, rfl, goal_contribution_sum_invariant _ freshGoal rfl rfl⟩

theorem map_updateMilestone_achieved_mono (current now : ℚ) (l : List Milestone) (i : ℕ)
    (h : (l[i]?).map Milestone.isAchieved = some true) :
    ((l.map (updateMilestone current now))[i]?).map Milestone.isAchieved = some true := by
  rw [List.getElem?_map]
  rcases hm : l[i]? with _ | m
  · rw [hm] at h
    exact Option.noConfusion h
  · rw [hm] at h
    simp only [Option.map_some'] at h ⊢
    exact congrArg some (updateMilestone_achieved_mono _ _ _ (Option.some.inj h))

/-- C2 counterexample.  A goal with target `100` receives a contribution of
`60`: its 25 % and 50 % milestones become achieved.  A `PUT` that raises
the target amount to `1000` then rebuilds the milestone list from scratch
and re-evaluates it against the current amount `60`: the previously
achieved 25 % and 50 % milestones come back with `isAchieved = false`,
refuting the claim that an achieved flag survives an edit that changes the
target amount. -/
theorem milestone_reset_on_target_edit_cex :
    ((contribute 1 60 "" .manual freshGoal).2.milestones.map
        (fun m => (m.percentage, m.isAchieved)) =
      [(25, true), (50, true), (75, false), (100, false)])
    ∧ ((updateGoal 2 { targetAmount := some 1000 } (contribute 1 60 "" .manual freshGoal).2).map
        (fun g => g.milestones.map (fun m => (m.percentage, m.isAchieved))) =
      Except.ok [(25, false), (50, false), (75, false), (100, false)]) := by
  constructor
  · norm_num [freshGoal, contribute, addContribution, preSave, updateMilestone, defaultMilestones]
  · norm_num [freshGoal, contribute, addContribution, preSave, updateMilestone, defaultMilestones,
      updateGoal, applyBasicEdits, Except.map]

/-- C2 (amended).  An achieved milestone flag stays `true` under every
contribution request, every auto-save request, and every `PUT` that does
not provide a target amount.  A `PUT` that provides a (valid) target
amount instead rebuilds all milestones from the new target and recomputes
each achieved flag as `currentAmount ≥ threshold`, so a previously
achieved milestone can become unachieved. -/
theorem milestone_achieved_monotone_amended (now : ℚ) (g : Goal) (i : ℕ)
    (h : (g.milestones[i]?).map Milestone.isAchieved = some true) :
    (∀ amount note source,
        (((contribute now amount note source g).2).milestones[i]?).map Milestone.isAchieved
          = some true)
    ∧ (∀ u g', u.targetAmount = none → updateGoal now u g = .ok g' →
        (g'.milestones[i]?).map Milestone.isAchieved = some true)
    ∧ ((((autoSaveRun now g).2).milestones[i]?).map Milestone.isAchieved = some true)
    ∧ (∀ u ta g', u.targetAmount = some ta → updateGoal now u g = .ok g' →
        g'.milestones.map Milestone.isAchieved =
          (defaultMilestones ta).map (fun m => decide (g.currentAmount ≥ m.amount))) := by
  refine ⟨?_, ?_, ?_, ?_⟩
  · intro amount note source
    unfold contribute
    split
    · exact h
    · split
      · exact h
      · unfold addContribution
        rw [preSave_milestones]
        exact map_updateMilestone_achieved_mono _ _ _ _ h
  · intro u g' hta hupd
    rw [updateGoal_milestones_of_no_target now u g g' hta hupd]
    exact map_updateMilestone_achieved_mono _ _ _ _ h
  · unfold autoSaveRun
    split
    · exact h
    · split
      · exact h
      · split
        · exact h
        · rw [preSave_milestones]
          apply map_updateMilestone_achieved_mono
          show (((addContribution now g.autoSave.amount "Auto-save contribution" .autoSave
              g).milestones)[i]?).map Milestone.isAchieved = some true
          unfold addContribution
          rw [preSave_milestones]
          exact map_updateMilestone_achieved_mono _ _ _ _ h
  · intro u ta g' hta hupd
    rw [updateGoal_milestones_of_target now u g g' ta hta hupd, List.map_map]
    apply List.map_congr_left
    intro m hm
    have hfalse : m.isAchieved = false := by
      simp only [defaultMilestones, List.mem_cons, List.not_mem_nil, or_false] at hm
      rcases hm with h1 | h1 | h1 | h1 <;> rw [h1]
    exact updateMilestone_isAchieved_of_not _ _ _ hfalse

/-- Witness for the amended C2: a concrete goal with an achieved first
milestone, and a later contribution that keeps it achieved. -/
theorem milestone_achieved_monotone_amended_witness :
    (((contribute 1 60 "" .manual freshGoal).2.milestones[0]?).map Milestone.isAchieved
      = some true)
    ∧ ((((contribute 3 5 "" .manual
          (contribute 1 60 "" .manual freshGoal).2).2).milestones[0]?).map Milestone.isAchieved
      = some true) := by
  have hyp : (((contribute 1 60 "" .manual freshGoal).2).milestones[0]?).map Milestone.isAchieved
      = some true := by
    norm_num [freshGoal, contribute, addContribution, preSave, updateMilestone, defaultMilestones]
  exact ⟨hyp, (milestone_achieved_monotone_amended 3 _ 0 hyp).1 5 "" .manual⟩

/-- C3.  A positive-amount contribution request against a goal whose
status is `paused`, `completed` or `cancelled` is rejected with the
invalid-state error, and the stored goal — its `currentAmount`, its
contribution list, its milestones — is returned unchanged. -/
theorem contribute_inactive_rejected (now amount : ℚ) (note : String)
    (source : ContributionSource) (g : Goal) (hamt : 0 < amount)
    (hst : g.status = .paused ∨ g.status = .completed ∨ g.status = .cancelled) :
    contribute now amount note source g = (some .invalidState, g) := by
  have hne : g.status ≠ .active := by
    rcases hst with h | h | h <;> simp [h]
  unfold contribute
  rw [if_neg (not_le.mpr hamt), if_pos hne]

/-- A concrete paused goal for the C3 witness. -/
def pausedGoal : Goal :=
  { title := "bike"
    targetAmount := 200
    currentAmount := 40
    category := .travel
    targetDate := 1000
    status := .paused
    milestones := defaultMilestones 200
    contributions := [{ amount := 40, date := 1, note := "", source := .manual }] }

/-- Witness for C3 at a concrete paused goal. -/
theorem contribute_inactive_rejected_witness :
    (0 : ℚ) < 25 ∧ (pausedGoal.status = .paused ∨ pausedGoal.status = .completed ∨
      pausedGoal.status = .cancelled) ∧
    contribute 5 25 "" .manual pausedGoal = (some .invalidState, pausedGoal) :=
  ⟨by norm_num, Or.inl rfl,
    contribute_inactive_rejected 5 25 "" .manual pausedGoal (by norm_num) (Or.inl rfl)⟩

/-- Period length in days per the spec's due rule (daily: 1 day, weekly:
7 days, monthly: a fixed 30 days). -/
def specAutoSavePeriodDays : Frequency → ℚ
  | .daily => 1
  | .weekly => 7
  | .monthly => 30

/-- C4.  For an active goal with auto-save enabled and a positive
per-period amount: the due check holds iff `lastAutoSave` is unset or the
elapsed time reaches the period length of the configured frequency (1, 7
or 30 days, in milliseconds); with frequency `weekly` it is not due at
exactly 6 days elapsed and due at exactly 7; when due, the run succeeds
and appends exactly one `auto-save` contribution of the configured amount,
adds it to `currentAmount`, and stamps `lastAutoSave = now`; when not due
it rejects with the not-due error and leaves the goal unchanged. -/
theorem autoSave_due_and_effect (now : ℚ) (g : Goal)
    (hen : g.autoSave.enabled = true) (hamt : 0 < g.autoSave.amount)
    (hst : g.status = .active) :
    (autoSaveDue now g = true ↔
      (g.autoSave.lastAutoSave = none ∨
        ∃ last, g.autoSave.lastAutoSave = some last ∧
          specAutoSavePeriodDays g.autoSave.frequency * 86400000 ≤ now - last))
    ∧ (g.autoSave.frequency = .weekly → g.autoSave.lastAutoSave = some (now - 6 * 86400000) →
        autoSaveDue now g = false)
    ∧ (g.autoSave.frequency = .weekly → g.autoSave.lastAutoSave = some (now - 7 * 86400000) →
        autoSaveDue now g = true)
    ∧ (autoSaveDue now g = true →
        (autoSaveRun now g).1 = none ∧
        (autoSaveRun now g).2.contributions =
          g.contributions ++
            [{ amount := g.autoSave.amount, date := now,
               note := "Auto-save contribution", source := .autoSave }] ∧
        (autoSaveRun now g).2.currentAmount = g.currentAmount + g.autoSave.amount ∧
        (autoSaveRun now g).2.autoSave.lastAutoSave = some now)
    ∧ (autoSaveDue now g = false → autoSaveRun now g = (some .notDue, g)) := by
  have hms : (0 : ℚ) < 86400000 := by norm_num
  have hdue : autoSaveDue now g = true ↔
      (g.autoSave.lastAutoSave = none ∨
        ∃ last, g.autoSave.lastAutoSave = some last ∧
          specAutoSavePeriodDays g.autoSave.frequency * 86400000 ≤ now - last) := by
    unfold autoSaveDue
    rcases hl : g.autoSave.lastAutoSave with _ | last
    · simp
    · rcases hf : g.autoSave.frequency <;>
        simp only [specAutoSavePeriodDays, decide_eq_true_eq, hl, Option.some.injEq,
          reduceCtorEq, false_or, ge_iff_le, le_div_iff₀ hms] <;>
        constructor <;>
        · intro hx
          first
            | exact ⟨last, rfl, by linarith [hx]⟩
            | (obtain ⟨l, hl2, hx2⟩ := hx
               cases hl2
               linarith [hx2])
  have hcond1 : ¬ (¬ g.autoSave.enabled = true ∨ g.autoSave.amount ≤ 0) := by
    rw [hen]
    push_neg
    exact ⟨rfl, hamt⟩
  have hcond2 : ¬ g.status ≠ .active := by
    rw [hst]
    simp
  refine ⟨hdue, ?_, ?_, ?_, ?_⟩
  · intro hf hl
    unfold autoSaveDue
    rw [hl, hf]
    simp only [ge_iff_le, decide_eq_false_iff_not, not_le]
    rw [div_lt_iff₀ hms]
    ring_nf
    norm_num
  · intro hf hl
    unfold autoSaveDue
    rw [hl, hf]
    simp only [ge_iff_le, decide_eq_true_eq]
    rw [le_div_iff₀ hms]
    ring_nf
    norm_num
  · intro hdue2
    unfold autoSaveRun
    rw [if_neg hcond1, if_neg (by rwa [not_not]), if_neg (by rw [hdue2]; simp)]
    refine ⟨rfl, ?_, ?_, ?_⟩
    · rw [preSave_contributions]
      show (addContribution now g.autoSave.amount "Auto-save contribution" .autoSave
          g).contributions = _
      rw [addContribution_contributions]
    · rw [preSave_currentAmount]
      show (addContribution now g.autoSave.amount "Auto-save contribution" .autoSave
          g).currentAmount = _
      rw [addContribution_currentAmount]
    · rw [preSave_autoSave]
  · intro hdue2
    unfold autoSaveRun
    rw [if_neg hcond1, if_neg (by rwa [not_not]), if_pos (by rw [hdue2]; simp)]

/-- A concrete auto-save goal (weekly, amount 10, last run at time 0) for
the C4 witness; `now` is taken 7 days (in milliseconds) later. -/
def autoGoal : Goal :=
  { title := "fund"
    targetAmount := 500
    currentAmount := 20
    category := .emergencyFund
    targetDate := 10 ^ 12
    autoSave := { enabled := true, amount := 10, frequency := .weekly,
                  lastAutoSave := some 0 }
    milestones := defaultMilestones 500
    contributions := [{ amount := 20, date := 0, note := "", source := .manual }] }

/-- Witness for C4: at exactly 7 elapsed days the run is due and appends
one auto-save contribution of 10. -/
theorem autoSave_due_and_effect_witness :
    autoGoal.autoSave.enabled = true ∧ (0 : ℚ) < autoGoal.autoSave.amount ∧
      autoGoal.status = .active ∧
      (autoSaveDue (7 * 86400000) autoGoal = true →
        (autoSaveRun (7 * 86400000) autoGoal).1 = none ∧
        (autoSaveRun (7 * 86400000) autoGoal).2.contributions =
          autoGoal.contributions ++
            [{ amount := autoGoal.autoSave.amount, date := 7 * 86400000,
               note := "Auto-save contribution", source := .autoSave }] ∧
        (autoSaveRun (7 * 86400000) autoGoal).2.currentAmount =
          autoGoal.currentAmount + autoGoal.autoSave.amount ∧
        (autoSaveRun (7 * 86400000) autoGoal).2.autoSave.lastAutoSave =
          some (7 * 86400000)) :=
  ⟨rfl, by norm_num [autoGoal], rfl,
    (autoSave_due_and_effect (7 * 86400000) autoGoal rfl (by norm_num [autoGoal])
      rfl).2.2.2.1⟩

/-! ## Budget projection (route GET /api/analytics/budget-analysis) -/

/-- `budgetUtilization = monthlyBudget > 0 ? currentTotal/monthlyBudget*100 : 0`. -/
def budgetUtilization (spend budget : ℚ) : ℚ :=
  if budget > 0 then spend / budget * 100 else 0

/-- `dailyAverage = currentDay > 0 ? currentTotal/currentDay : 0`. -/
def dailyAverage (spend : ℚ) (currentDay : ℕ) : ℚ :=
  if currentDay > 0 then spend / currentDay else 0

/-- `projectedMonthlyTotal = dailyAverage * daysInMonth`. -/
def projectedMonthlyTotal (spend : ℚ) (currentDay daysInMonth : ℕ) : ℚ :=
  dailyAverage spend currentDay * daysInMonth

/-- The four values the route's `budgetStatus` string can take. -/
inductive BudgetStatus
  | onTrack
  | overBudget
  | warning
  | projectedOverspend
deriving DecidableEq, Repr

/-- The route's status classification: starts at `on-track` and overrides
by the if/else-if chain of the source. -/
def budgetStatus (spend budget : ℚ) (currentDay daysInMonth : ℕ) : BudgetStatus :=
  let u := budgetUtilization spend budget
  if u > 100 then .overBudget
  else if u > 80 then .warning
  else if projectedMonthlyTotal spend currentDay daysInMonth > budget then .projectedOverspend
  else .onTrack

/-- Modelled from the spec's words (§4.3 "Status (first matching, in
order)"), as the refinement target for the code's classification:
`over-budget` if utilization>100; else `warning` if utilization>80; else
`projected-overspend` if projectedMonthlyTotal>budget; else `on-track`. -/
def specBudgetStatusRules (utilization projected budget : ℚ) : BudgetStatus :=
  if utilization > 100 then .overBudget
  else if utilization > 80 then .warning
  else if projected > budget then .projectedOverspend
  else .onTrack

/-- C5.  The budget status always equals the spec's first-matching-rule
cascade applied to the derived utilization and projection, hence is
exactly one of the four labels; at the claim's sample points (utilization
50 half-way through a 30-day month, 85, 105, and 60 with a projection that
exceeds the budget) it is `on-track`, `warning`, `over-budget` and
`projected-overspend` respectively. -/
theorem budget_status_classification (spend budget : ℚ) (currentDay daysInMonth : ℕ) :
    (budgetStatus spend budget currentDay daysInMonth =
      specBudgetStatusRules (budgetUtilization spend budget)
        (projectedMonthlyTotal spend currentDay daysInMonth) budget)
    ∧ (budgetStatus spend budget currentDay daysInMonth = .onTrack ∨
       budgetStatus spend budget currentDay daysInMonth = .overBudget ∨
       budgetStatus spend budget currentDay daysInMonth = .warning ∨
       budgetStatus spend budget currentDay daysInMonth = .projectedOverspend)
    ∧ (budgetUtilization 50 100 = 50 ∧ budgetStatus 50 100 15 30 = .onTrack)
    ∧ (budgetUtilization 85 100 = 85 ∧ budgetStatus 85 100 15 30 = .warning)
    ∧ (budgetUtilization 105 100 = 105 ∧ budgetStatus 105 100 15 30 = .overBudget)
    ∧ (budgetUtilization 60 100 = 60 ∧ projectedMonthlyTotal 60 10 30 > 100 ∧
        budgetStatus 60 100 10 30 = .projectedOverspend) := by
  refine ⟨rfl, ?_, ?_, ?_, ?_, ?_⟩
  · cases hX : budgetStatus spend budget currentDay daysInMonth <;> simp [hX]
  · constructor <;> norm_num [budgetUtilization, budgetStatus, projectedMonthlyTotal, dailyAverage]
  · constructor <;> norm_num [budgetUtilization, budgetStatus, projectedMonthlyTotal, dailyAverage]
  · constructor <;> norm_num [budgetUtilization, budgetStatus, projectedMonthlyTotal, dailyAverage]
  · refine ⟨?_, ?_, ?_⟩ <;>
      norm_num [budgetUtilization, budgetStatus, projectedMonthlyTotal, dailyAverage]

/-! ## Goal statistics (Goal.getUserGoalStats) and financial health
(route GET /api/analytics/financial-health) -/

/-- One entry of the `getUserGoalStats` result. -/
structure StatusStat where
  count : ℕ
  totalTarget : ℚ
  totalCurrent : ℚ
deriving DecidableEq, Repr

/-- The zero-filled four-status result shape of `getUserGoalStats`. -/
structure GoalStats where
  active : StatusStat
  completed : StatusStat
  paused : StatusStat
  cancelled : StatusStat
deriving DecidableEq, Repr

/-- `savingsRate = income > 0 ? (income-expenses)/income*100 : 0`. -/
def savingsRate (income expense : ℚ) : ℚ :=
  if income > 0 then (income - expense) / income * 100 else 0

/-- Factor 1 of the health score: savings rate, max 30 points. -/
def savingsRatePoints (rate : ℚ) : ℕ :=
  if rate ≥ 20 then 30 else if rate ≥ 10 then 20 else if rate ≥ 0 then 10 else 0

/-- Factor 2: budget adherence from the current-month utilization, max 25. -/
def budgetAdherencePoints (utilization : ℚ) : ℕ :=
  if utilization ≤ 80 then 25 else if utilization ≤ 100 then 15
  else if utilization ≤ 120 then 5 else 0

/-- `totalGoalProgress = activeGoals > 0 ? activeCurrent/activeTarget*100 : 0`. -/
def totalGoalProgress (stats : GoalStats) : ℚ :=
  if stats.active.count > 0 then
    stats.active.totalCurrent / stats.active.totalTarget * 100
  else 0

/-- Factor 3: goal progress, max 20. -/
def goalProgressPoints (stats : GoalStats) : ℕ :=
  if stats.completed.count > 0 ∧ totalGoalProgress stats ≥ 50 then 20
  else if totalGoalProgress stats ≥ 25 then 15
  else if stats.active.count > 0 then 10
  else 0

/-- Mean of the per-month expense totals. -/
def monthlyMean (ts : List ℚ) : ℚ := ts.sum / ts.length

/-- Population variance of the per-month expense totals. -/
def monthlyVariance (ts : List ℚ) : ℚ :=
  (ts.map (fun x => (x - monthlyMean ts) ^ 2)).sum / ts.length

/-- The source's test `coefficientOfVariation ≤ bound`, where the
coefficient is `stdDev/avg*100` when `avg > 0` and `0` otherwise.  Stated
on the squared quantities so the predicate stays executable; for a
positive mean it is equivalent to the square-root form, see
`cvWithin_iff_sqrt`. -/
def cvWithin (ts : List ℚ) (bound : ℚ) : Prop :=
  if 0 < monthlyMean ts then monthlyVariance ts ≤ (bound * monthlyMean ts / 100) ^ 2
  else True

instance (ts : List ℚ) (bound : ℚ) : Decidable (cvWithin ts bound) := by
  unfold cvWithin
  infer_instance

theorem monthlyVariance_nonneg (ts : List ℚ) : 0 ≤ monthlyVariance ts := by
  unfold monthlyVariance
  apply div_nonneg
  · apply List.sum_nonneg
    intro x hx
    simp only [List.mem_map] at hx
    obtain ⟨y, _, hy⟩ := hx
    rw [← hy]
    positivity
  · positivity

/-- Faithfulness of `cvWithin` to the source's square-root formulation:
for a positive mean and a non-negative bound, the squared comparison holds
iff `stdDev/mean*100 ≤ bound` over the reals. -/
theorem cvWithin_iff_sqrt (ts : List ℚ) (bound : ℚ) (hb : 0 ≤ bound)
    (hm : 0 < monthlyMean ts) :
    cvWithin ts bound ↔
      Real.sqrt (monthlyVariance ts) / (monthlyMean ts : ℝ) * 100 ≤ (bound : ℝ) := by
  have hmR : (0 : ℝ) < (monthlyMean ts : ℚ) := by exact_mod_cast hm
  have hB : (0 : ℚ) ≤ bound * monthlyMean ts / 100 :=
    div_nonneg (mul_nonneg hb hm.le) (by norm_num)
  have hBR : (0 : ℝ) ≤ ((bound * monthlyMean ts / 100 : ℚ) : ℝ) := by exact_mod_cast hB
  unfold cvWithin
  rw [if_pos hm]
  rw [div_mul_eq_mul_div, div_le_iff₀ hmR, show ((bound : ℚ) : ℝ) * (monthlyMean ts : ℚ)
      = ((bound * monthlyMean ts / 100 : ℚ) : ℝ) * 100 by push_cast; ring]
  rw [mul_le_mul_right (by norm_num : (0 : ℝ) < 100)]
  rw [Real.sqrt_le_left hBR]
  constructor <;> intro h <;> exact_mod_cast h

/-- Factor 4: expense consistency, max 15; computed only with at least two
months of data. -/
def consistencyPoints (ts : List ℚ) : ℕ :=
  if 2 ≤ ts.length then
    if cvWithin ts 20 then 15 else if cvWithin ts 40 then 10 else 5
  else 0

/-- Factor 5: emergency fund, max 10, looked up among the active goals. -/
def emergencyFundPoints (savingsGoals : List Goal) : ℕ :=
  match savingsGoals.find? (fun g => g.category = .emergencyFund) with
  | some g => if g.currentAmount ≥ g.targetAmount * (50 / 100) then 10 else 5
  | none => 0

/-- The financial health score: the sum of the five factor point values
accumulated by the route (the route's final `Math.round` is the identity
on this integer). -/
def healthScore (expense income : ℚ) (stats : GoalStats) (savingsGoals : List Goal)
    (utilization : ℚ) (monthlyTotals : List ℚ) : ℕ :=
  savingsRatePoints (savingsRate income expense)
    + budgetAdherencePoints utilization
    + goalProgressPoints stats
    + consistencyPoints monthlyTotals
    + emergencyFundPoints savingsGoals

/-- The route's overall health status label. -/
def healthStatus (score : ℕ) : String :=
  if score ≥ 80 then "excellent" else if score ≥ 60 then "good"
  else if score ≥ 40 then "fair" else "poor"

/-- Goal statistics for the C6 sample input: one active goal at 30 %
progress, no completed goals. -/
def healthExampleStats : GoalStats :=
  ⟨⟨1, 100, 30⟩, ⟨0, 0, 0⟩, ⟨0, 0, 0⟩, ⟨0, 0, 0⟩⟩

/-- An active non-emergency-fund goal for the C6 sample input. -/
def healthExampleGoal : Goal :=
  { title := "camera"
    targetAmount := 100
    currentAmount := 30
    category := .gadget
    targetDate := 1000
    milestones := defaultMilestones 100 }

/-- C6.  The health score is a natural number bounded by 100, equal to the
sum of five factors capped at 30/25/20/15/10; on the sample input
(income 1000, expense 700, utilization 70, one active goal at 30 %
progress, a single month of expense data, no emergency-fund goal) it is
exactly 70 with overall status `good`. -/
theorem financial_health_score (expense income : ℚ) (stats : GoalStats)
    (savingsGoals : List Goal) (utilization : ℚ) (monthlyTotals : List ℚ) :
    (healthScore expense income stats savingsGoals utilization monthlyTotals ≤ 100
      ∧ savingsRatePoints (savingsRate income expense) ≤ 30
      ∧ budgetAdherencePoints utilization ≤ 25
      ∧ goalProgressPoints stats ≤ 20
      ∧ consistencyPoints monthlyTotals ≤ 15
      ∧ emergencyFundPoints savingsGoals ≤ 10)
    ∧ (healthScore 700 1000 healthExampleStats [healthExampleGoal] 70 [700] = 70
      ∧ healthStatus 70 = "good") := by
  have h1 : savingsRatePoints (savingsRate income expense) ≤ 30 := by
    unfold savingsRatePoints
    split_ifs <;> norm_num
  have h2 : budgetAdherencePoints utilization ≤ 25 := by
    unfold budgetAdherencePoints
    split_ifs <;> norm_num
  have h3 : goalProgressPoints stats ≤ 20 := by
    unfold goalProgressPoints
    split_ifs <;> norm_num
  have h4 : consistencyPoints monthlyTotals ≤ 15 := by
    unfold consistencyPoints
    split_ifs <;> norm_num
  have h5 : emergencyFundPoints savingsGoals ≤ 10 := by
    unfold emergencyFundPoints
    rcases hf : savingsGoals.find? (fun g => g.category = .emergencyFund) with _ | g <;>
      simp only [hf]
    · norm_num
    · split_ifs <;> norm_num
  have hef : emergencyFundPoints [healthExampleGoal] = 0 := rfl
  refine ⟨⟨?_, h1, h2, h3, h4, h5⟩, ?_, rfl⟩
  · unfold healthScore
    omega
  · norm_num [healthScore, savingsRate, savingsRatePoints, budgetAdherencePoints,
      goalProgressPoints, totalGoalProgress, consistencyPoints,
      healthExampleStats, hef]

/-! ## Budget suggestions (generateBudgetSuggestions, AI routes) -/

/-- One entry of the `generateBudgetSuggestions` result (the localized
`description` string is presentation-only and not modelled). -/
structure BudgetSuggestion where
  category : String
  suggestedAmount : ℚ
deriving DecidableEq, Repr

/-- `studentBudgetAllocation` of the source, in object-key order. -/
def studentBudgetAllocation : List (String × ℚ) :=
  [("food", 35 / 100), ("transport", 15 / 100), ("entertainment", 20 / 100),
   ("education", 15 / 100), ("other", 15 / 100)]

/-- `generateBudgetSuggestions`: per-category allocations of the monthly
budget when it is positive, otherwise the single "set a monthly budget"
advisory entry; a general-tips entry is appended in both cases. -/
def generateBudgetSuggestions (monthlyBudget : ℚ) : List BudgetSuggestion :=
  (if monthlyBudget > 0 then
    studentBudgetAllocation.map
      (fun p => { category := p.1, suggestedAmount := monthlyBudget * p.2 })
  else
    [{ category := "general", suggestedAmount := 0 }])
  ++ [{ category := "tips", suggestedAmount := 0 }]

/-- Whether a suggestion entry is one of the five per-category budget
allocations. -/
def isCategoryAllocation (s : BudgetSuggestion) : Bool :=
  ["food", "transport", "entertainment", "education", "other"].contains s.category

/-- C7.  The result contains per-category allocation entries iff the
monthly budget is positive, in which case they are exactly the fixed
35/15/20/15/15 % split; with the budget 0 (unset) the result is the single
"set a budget" advisory entry (plus the unconditional general-tips entry)
and no per-category allocation. -/
theorem budget_suggestion_allocation (b : ℚ) :
    ((generateBudgetSuggestions b).filter isCategoryAllocation ≠ [] ↔ 0 < b)
    ∧ (0 < b → (generateBudgetSuggestions b).filter isCategoryAllocation =
        [⟨"food", b * (35 / 100)⟩, ⟨"transport", b * (15 / 100)⟩,
         ⟨"entertainment", b * (20 / 100)⟩, ⟨"education", b * (15 / 100)⟩,
         ⟨"other", b * (15 / 100)⟩])
    ∧ (b = 0 → generateBudgetSuggestions b = [⟨"general", 0⟩, ⟨"tips", 0⟩]) := by
  by_cases hb : 0 < b
  · refine ⟨⟨fun _ => hb, fun _ => ?_⟩, fun _ => ?_, fun h0 => absurd h0 (by
      intro h0
      rw [h0] at hb
      exact lt_irrefl 0 hb)⟩ <;>
      simp [generateBudgetSuggestions, studentBudgetAllocation, isCategoryAllocation,
        if_pos hb, List.filter]
  · refine ⟨⟨fun hne => ?_, fun h => absurd h hb⟩, fun h => absurd h hb, fun _ => ?_⟩
    · exact absurd (by
        simp [generateBudgetSuggestions, studentBudgetAllocation, isCategoryAllocation,
          if_neg hb, List.filter]) hne
    · simp [generateBudgetSuggestions, if_neg hb]

/-- Witness for C7 at the concrete budgets 100 (positive) and 0 (unset). -/
theorem budget_suggestion_allocation_witness :
    ((0 : ℚ) < 100 ∧ (generateBudgetSuggestions 100).filter isCategoryAllocation =
      [⟨"food", 100 * (35 / 100)⟩, ⟨"transport", 100 * (15 / 100)⟩,
       ⟨"entertainment", 100 * (20 / 100)⟩, ⟨"education", 100 * (15 / 100)⟩,
       ⟨"other", 100 * (15 / 100)⟩])
    ∧ ((0 : ℚ) = 0 ∧ generateBudgetSuggestions 0 = [⟨"general", 0⟩, ⟨"tips", 0⟩]) :=
  ⟨⟨by norm_num, (budget_suggestion_allocation 100).2.1 (by norm_num)⟩,
   ⟨rfl, (budget_suggestion_allocation 0).2.2 rfl⟩⟩

/-! ## Category-wise expense aggregation
(Expense.getCategoryWiseExpenses, src/backend/models/Expense.js) -/

/-- `category` enum of the expense schema. -/
inductive ExpenseCategory
  | food
  | transport
  | entertainment
  | shopping
  | education
  | health
  | rent
  | utilities
  | subscriptions
  | party
  | emergency
  | other
deriving DecidableEq, Repr

/-- An expense record (fields used by the aggregation; the owner id is
implicit, each modelled list being one user's records). -/
structure Expense where
  amount : ℚ
  category : ExpenseCategory
  date : ℚ
deriving DecidableEq, Repr

/-- One `$group` result of `getCategoryWiseExpenses`: `_id` (the
category), `totalAmount`, `count`, `avgAmount`. -/
structure CategoryStat where
  category : ExpenseCategory
  totalAmount : ℚ
  count : ℕ
  avgAmount : ℚ
deriving DecidableEq, Repr

/-- The `$match` stage: records with `startDate ≤ date ≤ endDate`. -/
def matchWindow (startDate endDate : ℚ) (es : List Expense) : List Expense :=
  es.filter (fun e => startDate ≤ e.date ∧ e.date ≤ endDate)

/-- The `$group` accumulator for one category over the matched records:
`$sum`, count, `$avg` (sum divided by count; groups are built only for
categories that occur, so the count is positive). -/
def categoryStat (es : List Expense) (c : ExpenseCategory) : CategoryStat :=
  let xs := es.filter (fun e => e.category = c)
  { category := c
    totalAmount := (xs.map Expense.amount).sum
    count := xs.length
    avgAmount := (xs.map Expense.amount).sum / xs.length }

/-- Descending order on `totalAmount`, the `$sort: { totalAmount: -1 }`
key. -/
def catTotalGE (a b : CategoryStat) : Prop := b.totalAmount ≤ a.totalAmount

instance : DecidableRel catTotalGE := fun a b =>
  inferInstanceAs (Decidable (b.totalAmount ≤ a.totalAmount))

instance : IsTotal CategoryStat catTotalGE :=
  ⟨fun a b => by
    unfold catTotalGE
    exact le_total _ _⟩

instance : IsTrans CategoryStat catTotalGE :=
  ⟨fun _ _ _ h1 h2 => le_trans h2 h1⟩

/-- `getCategoryWiseExpenses`: match on the date window, group by
category, sort descending by `totalAmount` (Mongo leaves the order of the
groups before the sort, and of ties after it, unspecified; the model picks
first-occurrence grouping order and a stable sort). -/
def getCategoryWiseExpenses (es : List Expense) (startDate endDate : ℚ) :
    List CategoryStat :=
  let m := matchWindow startDate endDate es
  List.insertionSort catTotalGE (((m.map Expense.category).dedup).map (categoryStat m))

/-- C8.  The category breakdown has exactly one entry per category
occurring in the window; each entry carries the exact sum, the record
count and the arithmetic mean of that category's matched records; entries
are sorted descending by total; and on the sample records (food 100,
food 50, transport 30) the result is exactly
`[{food,150,2,75}, {transport,30,1,30}]`. -/
theorem category_breakdown (es : List Expense) (startDate endDate : ℚ) :
    ((getCategoryWiseExpenses es startDate endDate).Pairwise catTotalGE)
    ∧ (((getCategoryWiseExpenses es startDate endDate).map CategoryStat.category).Nodup)
    ∧ (∀ c : ExpenseCategory,
        (∃ entry ∈ getCategoryWiseExpenses es startDate endDate, entry.category = c) ↔
        (∃ e ∈ matchWindow startDate endDate es, e.category = c))
    ∧ (∀ entry ∈ getCategoryWiseExpenses es startDate endDate,
        entry = categoryStat (matchWindow startDate endDate es) entry.category)
    ∧ (getCategoryWiseExpenses
        [⟨100, .food, 1⟩, ⟨50, .food, 2⟩, ⟨30, .transport, 3⟩] 0 10 =
      [⟨.food, 150, 2, 75⟩, ⟨.transport, 30, 1, 30⟩]) := by
  set m := matchWindow startDate endDate es with hm
  have hperm : (getCategoryWiseExpenses es startDate endDate).Perm
      (((m.map Expense.category).dedup).map (categoryStat m)) :=
    List.perm_insertionSort _ _
  refine ⟨?_, ?_, ?_, ?_, ?_⟩
  · exact List.sorted_insertionSort catTotalGE _
  · have hkeys : (((m.map Expense.category).dedup).map (categoryStat m)).map
        CategoryStat.category = (m.map Expense.category).dedup := by
      rw [List.map_map]
      have hid : ∀ c ∈ (m.map Expense.category).dedup,
          (CategoryStat.category ∘ categoryStat m) c = id c := fun c _ => rfl
      rw [List.map_congr_left hid, List.map_id]
    refine (hperm.map CategoryStat.category).nodup_iff.mpr ?_
    rw [hkeys]
    exact List.nodup_dedup _
  · intro c
    constructor
    · rintro ⟨entry, hmem, hc⟩
      have : entry ∈ ((m.map Expense.category).dedup).map (categoryStat m) :=
        hperm.mem_iff.mp hmem
      obtain ⟨c', hc', he⟩ := List.mem_map.mp this
      have : c' ∈ m.map Expense.category := List.mem_dedup.mp hc'
      obtain ⟨e, he2, hce⟩ := List.mem_map.mp this
      refine ⟨e, he2, ?_⟩
      rw [hce, ← hc, ← he]
      rfl
    · rintro ⟨e, hmem, hc⟩
      refine ⟨categoryStat m c, ?_, rfl⟩
      apply hperm.mem_iff.mpr
      apply List.mem_map.mpr
      exact ⟨c, List.mem_dedup.mpr (List.mem_map.mpr ⟨e, hmem, hc⟩), rfl⟩
  · intro entry hmem
    have : entry ∈ ((m.map Expense.category).dedup).map (categoryStat m) :=
      hperm.mem_iff.mp hmem
    obtain ⟨c', _, he⟩ := List.mem_map.mp this
    rw [← he]
    rfl
  · norm_num [getCategoryWiseExpenses, matchWindow, categoryStat, List.dedup,
      List.insertionSort, List.orderedInsert, catTotalGE, List.filter,
      show decide (ExpenseCategory.food = ExpenseCategory.transport) = false from rfl,
      show decide (ExpenseCategory.transport = ExpenseCategory.food) = false from rfl,
      show decide (ExpenseCategory.food = ExpenseCategory.food) = true from rfl,
      show decide (ExpenseCategory.transport = ExpenseCategory.transport) = true from rfl]

/-- Witness for C8 at the sample records: the food entry is in the result
and equals the direct aggregate of the matched food records. -/
theorem category_breakdown_witness :
    ((⟨.food, 150, 2, 75⟩ : CategoryStat) ∈ getCategoryWiseExpenses
      [⟨100, .food, 1⟩, ⟨50, .food, 2⟩, ⟨30, .transport, 3⟩] 0 10)
    ∧ ((⟨.food, 150, 2, 75⟩ : CategoryStat) = categoryStat
        (matchWindow 0 10 [⟨100, .food, 1⟩, ⟨50, .food, 2⟩, ⟨30, .transport, 3⟩])
        ExpenseCategory.food) := by
  have hall := category_breakdown [⟨100, .food, 1⟩, ⟨50, .food, 2⟩, ⟨30, .transport, 3⟩] 0 10
  have hmem : (⟨.food, 150, 2, 75⟩ : CategoryStat) ∈ getCategoryWiseExpenses
      [⟨100, .food, 1⟩, ⟨50, .food, 2⟩, ⟨30, .transport, 3⟩] 0 10 := by
    rw [hall.2.2.2.2]
    simp
  exact ⟨hmem, hall.2.2.2.1 _ hmem⟩

/-! ## Goal query helpers (Goal.getGoalsByPriority, Goal.getUserGoalStats) -/

/-- The wire value that the `priority` field stores, the value Mongo's
`sort({ priority: 1 })` actually compares (BSON compares strings by UTF-8
byte order, which on these ASCII values is the lexicographic order on
their characters). -/
def priorityWire : Priority → String
  | .low => "low"
  | .medium => "medium"
  | .high => "high"
  | .urgent => "urgent"

/-- The sort order of `getGoalsByPriority`'s
`sort({ priority: 1, targetDate: 1 })`: ascending by the priority string,
ties broken by target date ascending. -/
def mongoGoalLE (a b : Goal) : Prop :=
  priorityWire a.priority < priorityWire b.priority ∨
    (priorityWire a.priority = priorityWire b.priority ∧ a.targetDate ≤ b.targetDate)

instance : DecidableRel mongoGoalLE := fun a b => by
  unfold mongoGoalLE
  infer_instance

instance : IsTotal Goal mongoGoalLE :=
  ⟨fun a b => by
    unfold mongoGoalLE
    rcases lt_trichotomy (priorityWire a.priority) (priorityWire b.priority) with h | h | h
    · exact Or.inl (Or.inl h)
    · rcases le_total a.targetDate b.targetDate with h2 | h2
      · exact Or.inl (Or.inr ⟨h, h2⟩)
      · exact Or.inr (Or.inr ⟨h.symm, h2⟩)
    · exact Or.inr (Or.inl h)⟩

instance : IsTrans Goal mongoGoalLE :=
  ⟨fun a b c h1 h2 => by
    unfold mongoGoalLE at h1 h2 ⊢
    rcases h1 with h1 | ⟨h1, h1d⟩ <;> rcases h2 with h2 | ⟨h2, h2d⟩
    · exact Or.inl (h1.trans h2)
    · exact Or.inl (h2 ▸ h1)
    · exact Or.inl (h1 ▸ h2)
    · exact Or.inr ⟨h1.trans h2, h1d.trans h2d⟩⟩

/-- `Goal.getGoalsByPriority`: the user's goals with status `active`,
ordered by `sort({ priority: 1, targetDate: 1 })` — ascending on the
stored priority string.  (A pure query: no mutation.) -/
def getGoalsByPriority (goals : List Goal) : List Goal :=
  List.insertionSort mongoGoalLE (goals.filter (fun g => g.status = .active))

/-- The ordering the claim asserts: by priority rank — urgent before high
before medium before low — then target date ascending.  (Modelled from
the spec's words, as the refinement target.) -/
def specPriorityRank : Priority → ℕ
  | .urgent => 0
  | .high => 1
  | .medium => 2
  | .low => 3

/-- The claimed order relation on goals. -/
def specPriorityLE (a b : Goal) : Prop :=
  specPriorityRank a.priority < specPriorityRank b.priority ∨
    (specPriorityRank a.priority = specPriorityRank b.priority ∧ a.targetDate ≤ b.targetDate)

/-- An urgent active goal for the C9 counterexample. -/
def urgentGoal : Goal :=
  { title := "exam fees"
    targetAmount := 100
    category := .education
    priority := .urgent
    targetDate := 500
    milestones := defaultMilestones 100 }

/-- A high-priority active goal for the C9 counterexample. -/
def highGoal : Goal :=
  { title := "laptop"
    targetAmount := 300
    category := .gadget
    priority := .high
    targetDate := 500
    milestones := defaultMilestones 300 }

/-- C9 counterexample.  With one urgent and one high active goal (equal
target dates), `sort({ priority: 1 })` sorts the priority *strings*
ascending — `"high" < "urgent"` lexicographically — so the high goal comes
first, while the claimed urgent-before-high rank order would put the
urgent goal first: the output is not ordered by the claimed rank. -/
theorem goals_by_priority_rank_cex :
    (getGoalsByPriority [urgentGoal, highGoal]).map Goal.priority = [.high, .urgent]
    ∧ ¬ specPriorityLE highGoal urgentGoal
    ∧ ¬ ((getGoalsByPriority [urgentGoal, highGoal]).Pairwise specPriorityLE) := by
  have horder : getGoalsByPriority [urgentGoal, highGoal] = [highGoal, urgentGoal] := by
    have : ¬ mongoGoalLE urgentGoal highGoal := by
      unfold mongoGoalLE priorityWire urgentGoal highGoal
      simp only [String.lt_iff_toList_lt]
      rintro (h | ⟨h, _⟩)
      · exact absurd h (by decide)
      · exact absurd h (by decide)
    have hfilter : ([urgentGoal, highGoal].filter (fun g => g.status = .active))
        = [urgentGoal, highGoal] := rfl
    unfold getGoalsByPriority
    rw [hfilter]
    simp [List.insertionSort, List.orderedInsert, if_neg this]
  have hnot : ¬ specPriorityLE highGoal urgentGoal := by
    unfold specPriorityLE specPriorityRank highGoal urgentGoal
    rintro (h | ⟨h, _⟩) <;> simp_all
  refine ⟨by rw [horder]; rfl, hnot, ?_⟩
  rw [horder]
  intro hpw
  exact hnot ((List.pairwise_cons.mp hpw).1 urgentGoal (by simp))

/-- C9 (amended).  `getGoalsByPriority` returns exactly the active goals
(a permutation of the active filter, no mutation), ordered ascending by
the stored priority string — alphabetically: high, low, medium, urgent —
with ties broken by target date ascending. -/
theorem goals_by_priority_order_amended (goals : List Goal) :
    ((getGoalsByPriority goals).Perm (goals.filter (fun g => g.status = .active)))
    ∧ ((getGoalsByPriority goals).Pairwise mongoGoalLE)
    ∧ (∀ g, g ∈ getGoalsByPriority goals ↔ g ∈ goals ∧ g.status = .active) := by
  refine ⟨List.perm_insertionSort _ _, List.sorted_insertionSort _ _, fun g => ?_⟩
  unfold getGoalsByPriority
  rw [(List.perm_insertionSort mongoGoalLE _).mem_iff, List.mem_filter]
  simp

/-- The direct per-status aggregate: count of the goals in that status and
the sums of their target and current amounts. -/
def aggregateForStatus (goals : List Goal) (s : GoalStatus) : StatusStat :=
  let gs := goals.filter (fun g => g.status = s)
  { count := gs.length
    totalTarget := (gs.map Goal.targetAmount).sum
    totalCurrent := (gs.map Goal.currentAmount).sum }

/-- The distinct statuses occurring among the goals: the group keys the
`$group: { _id: '$status' }` stage produces. -/
def statusList (goals : List Goal) : List GoalStatus :=
  (goals.map Goal.status).dedup

/-- The aggregation-stage output of `getUserGoalStats`: one
`(status, stat)` pair per occurring status. -/
def groupByStatus (goals : List Goal) : List (GoalStatus × StatusStat) :=
  (statusList goals).map (fun s => (s, aggregateForStatus goals s))

/-- The zero-filled base object the route builds before copying the
aggregation results over it. -/
def emptyGoalStats : GoalStats :=
  ⟨⟨0, 0, 0⟩, ⟨0, 0, 0⟩, ⟨0, 0, 0⟩, ⟨0, 0, 0⟩⟩

/-- `result[stat._id] = {…}` for one aggregation row. -/
def setStat (r : GoalStats) (s : GoalStatus) (v : StatusStat) : GoalStats :=
  match s with
  | .active => { r with active := v }
  | .completed => { r with completed := v }
  | .paused => { r with paused := v }
  | .cancelled => { r with cancelled := v }

/-- Reading one status entry of the result object. -/
def GoalStats.get (r : GoalStats) (s : GoalStatus) : StatusStat :=
  match s with
  | .active => r.active
  | .completed => r.completed
  | .paused => r.paused
  | .cancelled => r.cancelled

/-- `Goal.getUserGoalStats`: aggregate by status, then overwrite the
zero-filled four-status base with each aggregation row. -/
def getUserGoalStats (goals : List Goal) : GoalStats :=
  (groupByStatus goals).foldl (fun r p => setStat r p.1 p.2) emptyGoalStats

theorem get_setStat_same (r : GoalStats) (s : GoalStatus) (v : StatusStat) :
    (setStat r s v).get s = v := by
  cases s <;> rfl

theorem get_setStat_ne (r : GoalStats) (s s' : GoalStatus) (v : StatusStat)
    (h : s ≠ s') : (setStat r s v).get s' = r.get s' := by
  cases s <;> cases s' <;> first | rfl | exact absurd rfl h

theorem foldl_setStat_get (l : List (GoalStatus × StatusStat))
    (hnd : (l.map Prod.fst).Nodup) (r : GoalStats) (s : GoalStatus) :
    (l.foldl (fun r p => setStat r p.1 p.2) r).get s =
      match l.find? (fun p => p.1 = s) with
      | some p => p.2
      | none => r.get s := by
  induction l generalizing r with
  | nil => rfl
  | cons a t ih =>
    have hnd2 : (a.1 ∉ t.map Prod.fst) ∧ (t.map Prod.fst).Nodup := by
      rw [List.map_cons] at hnd
      exact List.nodup_cons.mp hnd
    rw [List.foldl_cons, ih hnd2.2]
    by_cases hs : a.1 = s
    · have hfind_t : t.find? (fun p => p.1 = s) = none := by
        rw [List.find?_eq_none]
        intro p hp hps
        simp only [decide_eq_true_eq] at hps
        have hmem : p.1 ∈ t.map Prod.fst := List.mem_map.mpr ⟨p, hp, rfl⟩
        rw [hps, ← hs] at hmem
        exact hnd2.1 hmem
      rw [hfind_t, List.find?_cons_of_pos _ (by simp [hs])]
      rw [← hs, get_setStat_same]
    · rw [List.find?_cons_of_neg _ (by simp [hs])]
      cases t.find? (fun p => p.1 = s)
      · exact get_setStat_ne _ _ _ _ hs
      · rfl

/-- C10.  For every owner's goal list and every one of the four statuses,
the `getUserGoalStats` result entry for that status — an entry that always
exists, zero-filled when no goal has the status — carries exactly the
count of that status's goals and the sums of their target and current
amounts. -/
theorem goal_stats_zero_filled (goals : List Goal) (s : GoalStatus) :
    (getUserGoalStats goals).get s =
      { count := (goals.filter (fun g => g.status = s)).length
        totalTarget := ((goals.filter (fun g => g.status = s)).map Goal.targetAmount).sum
        totalCurrent := ((goals.filter (fun g => g.status = s)).map Goal.currentAmount).sum } := by
  have hnd : ((groupByStatus goals).map Prod.fst).Nodup := by
    unfold groupByStatus
    rw [List.map_map]
    have hid : ∀ c ∈ statusList goals,
        (Prod.fst ∘ fun s => (s, aggregateForStatus goals s)) c = id c := fun c _ => rfl
    rw [List.map_congr_left hid, List.map_id]
    exact List.nodup_dedup _
  unfold getUserGoalStats
  rw [foldl_setStat_get _ hnd]
  unfold groupByStatus
  rw [List.find?_map]
  rcases hf : (statusList goals).find? (fun s' => s' = s) with _ | x
  · have hnotin : s ∉ statusList goals := by
      intro hmem
      have := List.find?_eq_none.mp hf s hmem
      simp at this
    have hempty : goals.filter (fun g => g.status = s) = [] := by
      rw [List.filter_eq_nil_iff]
      intro g hg
      simp only [decide_eq_true_eq]
      intro hgs
      exact hnotin (List.mem_dedup.mpr (List.mem_map.mpr ⟨g, hg, hgs⟩))
    have : ((statusList goals).find? ((fun p => p.1 = s) ∘ fun s => (s, aggregateForStatus goals s))) = none := by
      rw [← hf]
      rfl
    rw [this]
    simp only [Option.map_none']
    rw [hempty]
    cases s <;> rfl
  · have hxs : x = s := by
      have := List.find?_some hf
      simpa using this
    have : ((statusList goals).find? ((fun p => p.1 = s) ∘ fun s => (s, aggregateForStatus goals s))) = some x := by
      rw [← hf]
      rfl
    rw [this]
    simp only [Option.map_some']
    rw [hxs]
    rfl

end FinanceApp
